import Mathlib

/-!
Verification of the dograh telephony call-control gateway.

This file gives a shallow embedding of the call-run state machine, the
status-callback processor, the inbound validation pipeline, webhook provider
detection, the provider factory and the outbound call initiator, translated
from `api/routes/telephony.py`, `api/services/telephony/factory.py`,
`api/enums.py` and `api/services/pipecat/event_handlers.py`, together with
theorems settling the specified behaviour.
-/

namespace Dograh

/-- `WorkflowRunState` from `api/enums.py`: the three run lifecycle states. -/
inductive WorkflowRunState
  | INITIALIZED
  | RUNNING
  | COMPLETED
deriving DecidableEq, Repr

/-- The string value of each `WorkflowRunState` member, as in `api/enums.py`. -/
def WorkflowRunState.value : WorkflowRunState → String
  | .INITIALIZED => "initialized"
  | .RUNNING => "running"
  | .COMPLETED => "completed"

/-- Rank of a state in the lifecycle order INITIALIZED < RUNNING < COMPLETED. -/
def WorkflowRunState.rank : WorkflowRunState → Nat
  | .INITIALIZED => 0
  | .RUNNING => 1
  | .COMPLETED => 2

/-- The canonical status update (`StatusCallbackRequest` in
`api/routes/telephony.py`). `extra` is the pass-through vendor payload,
modelled as an association list. -/
structure StatusCallbackRequest where
  call_id : String
  status : String
  from_number : Option String := none
  to_number : Option String := none
  direction : Option String := none
  duration : Option String := none
  extra : List (String × String) := []
deriving DecidableEq, Repr

/-- One entry of the `telephony_status_callbacks` log stream, as built in
`_process_status_update`: status, timestamp, call id, duration, plus the
vendor-extra fields spread into the entry. -/
structure TelephonyCallbackLog where
  status : String
  timestamp : String
  call_id : String
  duration : Option String
  extra : List (String × String)
deriving DecidableEq, Repr

/-- The slice of a workflow-run row that the telephony subsystem reads and
writes: lifecycle state, completion flag, the `telephony_status_callbacks`
log stream, the `call_tags` list kept in `gathered_context`, the optional
campaign linkage, and the provider recorded in `initial_context`. -/
structure WorkflowRun where
  state : WorkflowRunState
  is_completed : Bool
  telephony_status_callbacks : List TelephonyCallbackLog
  call_tags : List String
  campaign_id : Option Nat
  queued_run_id : Option Nat
  initial_context_provider : Option String
deriving DecidableEq, Repr

/-- A retry-needed event as published by
`publisher.publish_retry_needed(...)` in `_process_status_update`. -/
structure RetryNeededEvent where
  workflow_run_id : Nat
  reason : String
  campaign_id : Nat
  queued_run_id : Option Nat
deriving DecidableEq, Repr

/-- The externally visible side effects of one `_process_status_update` call:
how many times `campaign_call_dispatcher.release_call_slot` ran and which
retry-needed events were published. -/
structure StatusUpdateEffects where
  slot_releases : Nat
  retry_events : List RetryNeededEvent
deriving DecidableEq, Repr

/-- Python `str.replace("-", "_")`: every hyphen becomes an underscore. -/
def hyphenToUnderscore (s : String) : String :=
  String.mk (s.data.map (fun c => if c = '-' then '_' else c))

/-- Python `str.lower()` on the ASCII statuses handled here. -/
def lowerStr (s : String) : String :=
  String.mk (s.data.map Char.toLower)

/-- `_process_status_update` from `api/routes/telephony.py` (lines 671-744):
appends one entry to the `telephony_status_callbacks` log, then on a
`completed` status releases the campaign slot (if any) and completes the run;
on `failed`/`busy`/`no-answer`/`canceled` releases the campaign slot (if
any), publishes a retry-needed event for `busy`/`no-answer` campaign calls,
appends the failure tags and completes the run. `now` stands for
`datetime.now(UTC).isoformat()`. -/
def processStatusUpdate (workflow_run_id : Nat) (status : StatusCallbackRequest)
    (workflow_run : WorkflowRun) (now : String) :
    WorkflowRun × StatusUpdateEffects :=
  let entry : TelephonyCallbackLog :=
    { status := status.status
      timestamp := now
      call_id := status.call_id
      duration := status.duration
      extra := status.extra }
  let logged :=
    { workflow_run with
        telephony_status_callbacks :=
          workflow_run.telephony_status_callbacks ++ [entry] }
  if status.status = "completed" then
    let slots := if workflow_run.campaign_id.isSome then 1 else 0
    ({ logged with is_completed := true, state := .COMPLETED },
      { slot_releases := slots, retry_events := [] })
  else if ["failed", "busy", "no-answer", "canceled"].contains status.status then
    let slots := if workflow_run.campaign_id.isSome then 1 else 0
    let retries : List RetryNeededEvent :=
      if ["busy", "no-answer"].contains status.status then
        match workflow_run.campaign_id with
        | some cid =>
            [{ workflow_run_id := workflow_run_id
               reason := hyphenToUnderscore status.status
               campaign_id := cid
               queued_run_id := workflow_run.queued_run_id }]
        | none => []
      else []
    let tags :=
      workflow_run.call_tags ++
        ["not_connected", "telephony_" ++ lowerStr status.status]
    ({ logged with is_completed := true, state := .COMPLETED, call_tags := tags },
      { slot_releases := slots, retry_events := retries })
  else
    (logged, { slot_releases := 0, retry_events := [] })

/-- C1: processing a `completed` status update appends exactly one structured
entry (status, timestamp, call id, duration, vendor-extra fields) to the
run's telephony callback log, sets `is_completed = true` and
`state = COMPLETED`, and releases the concurrency slot exactly once when
`campaign_id` is set and zero times when it is not. -/
theorem completed_update_appends_log_completes_and_releases_slot
    (workflow_run_id : Nat) (cid : String) (fn tn dir dur : Option String)
    (extra : List (String × String)) (run : WorkflowRun) (now : String) :
    let status : StatusCallbackRequest :=
      { call_id := cid, status := "completed", from_number := fn,
        to_number := tn, direction := dir, duration := dur, extra := extra }
    let out := processStatusUpdate workflow_run_id status run now
    out.1.telephony_status_callbacks =
      run.telephony_status_callbacks ++
        [{ status := "completed", timestamp := now, call_id := cid,
           duration := dur, extra := extra }] ∧
    out.1.is_completed = true ∧
    out.1.state = .COMPLETED ∧
    out.2.slot_releases = (if run.campaign_id.isSome then 1 else 0) ∧
    out.2.retry_events = [] := by
  simp [processStatusUpdate]

/-- C2: processing a status update in `{failed, busy, no-answer, canceled}`
releases the concurrency slot exactly once iff `campaign_id` is set, appends
the tags `not_connected` and `telephony_<status>` to the run's call tags,
publishes exactly one retry-needed event (with hyphens in the reason replaced
by underscores, carrying run id, campaign id and queued run id) exactly when
the status is `busy` or `no-answer` and `campaign_id` is set, appends one log
entry, and completes the run. -/
theorem failure_update_releases_slot_tags_and_publishes_retry
    (workflow_run_id : Nat) (st : String)
    (hst : st ∈ (["failed", "busy", "no-answer", "canceled"] : List String))
    (cid : String) (dur : Option String) (extra : List (String × String))
    (run : WorkflowRun) (now : String) :
    let status : StatusCallbackRequest :=
      { call_id := cid, status := st, duration := dur, extra := extra }
    let out := processStatusUpdate workflow_run_id status run now
    out.2.slot_releases = (if run.campaign_id.isSome then 1 else 0) ∧
    out.1.call_tags =
      run.call_tags ++ ["not_connected", "telephony_" ++ lowerStr st] ∧
    out.2.retry_events =
      (match run.campaign_id with
       | some c =>
           if st ∈ (["busy", "no-answer"] : List String) then
             [{ workflow_run_id := workflow_run_id
                reason := hyphenToUnderscore st
                campaign_id := c
                queued_run_id := run.queued_run_id }]
           else []
       | none => []) ∧
    out.1.state = .COMPLETED ∧
    out.1.is_completed = true ∧
    out.1.telephony_status_callbacks =
      run.telephony_status_callbacks ++
        [{ status := st, timestamp := now, call_id := cid,
           duration := dur, extra := extra }] := by
  simp only [List.mem_cons, List.not_mem_nil, or_false] at hst
  rcases hst with h | h | h | h <;> subst h <;>
    cases hc : run.campaign_id <;>
      simp [processStatusUpdate, hc]

/-- Witness for C2: a concrete `no-answer` update on a campaign call. -/
theorem failure_update_witness :
    let run : WorkflowRun :=
      { state := .RUNNING, is_completed := false,
        telephony_status_callbacks := [], call_tags := ["x"],
        campaign_id := some 9, queued_run_id := some 4,
        initial_context_provider := some "twilio" }
    let status : StatusCallbackRequest :=
      { call_id := "CA1", status := "no-answer", duration := some "0",
        extra := [("k", "v")] }
    let out := processStatusUpdate 7 status run "t0"
    out.2.slot_releases = 1 ∧
    out.1.call_tags = ["x", "not_connected", "telephony_no-answer"] ∧
    out.2.retry_events =
      [{ workflow_run_id := 7, reason := "no_answer", campaign_id := 9,
         queued_run_id := some 4 }] ∧
    out.1.state = .COMPLETED ∧
    out.1.is_completed = true := by
  have h := failure_update_releases_slot_tags_and_publishes_retry 7 "no-answer"
    (by decide) "CA1" (some "0") [("k", "v")]
    { state := .RUNNING, is_completed := false,
      telephony_status_callbacks := [], call_tags := ["x"],
      campaign_id := some 9, queued_run_id := some 4,
      initial_context_provider := some "twilio" } "t0"
  simp only at h ⊢
  obtain ⟨h1, h2, h3, h4, h5, -⟩ := h
  have e1 : lowerStr "no-answer" = "no-answer" := by decide
  have e2 : hyphenToUnderscore "no-answer" = "no_answer" := by decide
  refine ⟨by simpa using h1, ?_, ?_, h4, h5⟩
  · rw [e1] at h2; simpa using h2
  · rw [e2] at h3; simpa using h3

/-- Environment read by the media-session WebSocket endpoint: the stored run
for the path's `workflow_run_id` (if any), whether the path's workflow
exists, and the `PROVIDER_NAME` of the provider configured for the
workflow's organization (`get_telephony_provider`). -/
structure WsEnv where
  workflow_run : Option WorkflowRun
  workflow_exists : Bool
  org_provider : String
deriving DecidableEq, Repr

/-- Outcome of a WebSocket connect attempt: rejected with a close code and
reason, or accepted, recording the run state in force when the provider's
`handle_websocket` is invoked. -/
inductive WsResult
  | rejected (code : Nat) (reason : String)
  | accepted (stateAtHandler : WorkflowRunState)
deriving DecidableEq, Repr

/-- `websocket_endpoint` from `api/routes/telephony.py` (lines 513-594):
checks run existence, workflow existence, `state == initialized`, the
provider recorded in `initial_context`, and that it matches the configured
provider; on success sets the run state to `running` before delegating to
the provider handler. Returns the outcome together with the stored run
after the attempt. -/
def websocketEndpoint (env : WsEnv) : WsResult × Option WorkflowRun :=
  match env.workflow_run with
  | none => (.rejected 4404 "Workflow run not found", none)
  | some run =>
    if env.workflow_exists = false then
      (.rejected 4404 "Workflow not found", some run)
    else if run.state ≠ .INITIALIZED then
      (.rejected 4409 "Workflow run not available for connection", some run)
    else
      match run.initial_context_provider with
      | none => (.rejected 4400 "Provider type not found", some run)
      | some ptype =>
        if env.org_provider ≠ ptype then
          (.rejected 4400 "Provider mismatch", some run)
        else
          (.accepted .RUNNING, some { run with state := .RUNNING })

/-- C3 counterexample: the claim asserts a pairwise-distinct close code per
failure kind, but a missing provider type and a provider mismatch are both
rejected with the same close code 4400, only the reason text differs. -/
theorem websocket_close_codes_not_distinct :
    (websocketEndpoint
      { workflow_run := some
          { state := .INITIALIZED, is_completed := false,
            telephony_status_callbacks := [], call_tags := [],
            campaign_id := none, queued_run_id := none,
            initial_context_provider := none },
        workflow_exists := true, org_provider := "twilio" }).1 =
      .rejected 4400 "Provider type not found" ∧
    (websocketEndpoint
      { workflow_run := some
          { state := .INITIALIZED, is_completed := false,
            telephony_status_callbacks := [], call_tags := [],
            campaign_id := none, queued_run_id := none,
            initial_context_provider := some "vonage" },
        workflow_exists := true, org_provider := "twilio" }).1 =
      .rejected 4400 "Provider mismatch" := by
  constructor <;> rfl

/-- C3 (amended): the endpoint accepts exactly when the run exists, its state
is INITIALIZED and the configured provider equals the provider in
`initial_context`; each failure is rejected with a non-1000 close code
(not-found 4404, wrong-state 4409, provider-mismatch and missing-provider-
type both 4400) leaving the stored run unchanged; on acceptance the state is
RUNNING before the handler runs and is persisted, so a second connect on the
same run is rejected with the conflict code 4409 and leaves state
unchanged. -/
theorem websocket_endpoint_guarded_transition (env : WsEnv) :
    (env.workflow_run = none →
      websocketEndpoint env = (.rejected 4404 "Workflow run not found", none)) ∧
    (∀ run, env.workflow_run = some run →
      ((env.workflow_exists = false →
        websocketEndpoint env = (.rejected 4404 "Workflow not found", some run)) ∧
      (env.workflow_exists = true → run.state ≠ .INITIALIZED →
        websocketEndpoint env =
          (.rejected 4409 "Workflow run not available for connection", some run)) ∧
      (env.workflow_exists = true → run.state = .INITIALIZED →
        run.initial_context_provider = none →
        websocketEndpoint env =
          (.rejected 4400 "Provider type not found", some run)) ∧
      (∀ ptype, env.workflow_exists = true → run.state = .INITIALIZED →
        run.initial_context_provider = some ptype → env.org_provider ≠ ptype →
        websocketEndpoint env = (.rejected 4400 "Provider mismatch", some run)) ∧
      (∀ ptype, env.workflow_exists = true → run.state = .INITIALIZED →
        run.initial_context_provider = some ptype → env.org_provider = ptype →
        websocketEndpoint env =
          (.accepted .RUNNING, some { run with state := .RUNNING }) ∧
        websocketEndpoint { env with
            workflow_run := some { run with state := .RUNNING } } =
          (.rejected 4409 "Workflow run not available for connection",
            some { run with state := .RUNNING })))) ∧
    (∀ code reason run?, websocketEndpoint env = (.rejected code reason, run?) →
      code ≠ 1000 ∧ run? = env.workflow_run) := by
  refine ⟨?_, ?_, ?_⟩
  · intro h; simp [websocketEndpoint, h]
  · intro run hrun
    refine ⟨?_, ?_, ?_, ?_, ?_⟩
    · intro hw; simp [websocketEndpoint, hrun, hw]
    · intro hw hst; simp [websocketEndpoint, hrun, hw, hst]
    · intro hw hst hp; simp [websocketEndpoint, hrun, hw, hst, hp]
    · intro ptype hw hst hp hne
      simp [websocketEndpoint, hrun, hw, hst, hp, hne]
    · intro ptype hw hst hp heq
      constructor
      · simp [websocketEndpoint, hrun, hw, hst, hp, heq]
      · simp [websocketEndpoint, hw]
  · intro code reason run? h
    rcases hr : env.workflow_run with _ | run
    · have hv : websocketEndpoint env =
          (.rejected 4404 "Workflow run not found", none) := by
        simp [websocketEndpoint, hr]
      rw [hv] at h
      obtain ⟨ha, hb⟩ := Prod.ext_iff.mp h
      cases ha
      exact ⟨by decide, hb.symm⟩
    · by_cases hw : env.workflow_exists = false
      · have hv : websocketEndpoint env =
            (.rejected 4404 "Workflow not found", some run) := by
          simp [websocketEndpoint, hr, hw]
        rw [hv] at h
        obtain ⟨ha, hb⟩ := Prod.ext_iff.mp h
        cases ha
        exact ⟨by decide, hb.symm⟩
      · by_cases hst : run.state = .INITIALIZED
        · rcases hp : run.initial_context_provider with _ | ptype
          · have hv : websocketEndpoint env =
                (.rejected 4400 "Provider type not found", some run) := by
              simp [websocketEndpoint, hr, hw, hst, hp]
            rw [hv] at h
            obtain ⟨ha, hb⟩ := Prod.ext_iff.mp h
            cases ha
            exact ⟨by decide, hb.symm⟩
          · by_cases hpe : env.org_provider = ptype
            · have hv : websocketEndpoint env =
                  (.accepted .RUNNING, some { run with state := .RUNNING }) := by
                simp [websocketEndpoint, hr, hw, hst, hp, hpe]
              rw [hv] at h
              exact absurd (Prod.ext_iff.mp h).1 (by simp)
            · have hv : websocketEndpoint env =
                  (.rejected 4400 "Provider mismatch", some run) := by
                simp [websocketEndpoint, hr, hw, hst, hp, hpe]
              rw [hv] at h
              obtain ⟨ha, hb⟩ := Prod.ext_iff.mp h
              cases ha
              exact ⟨by decide, hb.symm⟩
        · have hv : websocketEndpoint env =
              (.rejected 4409 "Workflow run not available for connection",
                some run) := by
            simp [websocketEndpoint, hr, hw, hst]
          rw [hv] at h
          obtain ⟨ha, hb⟩ := Prod.ext_iff.mp h
          cases ha
          exact ⟨by decide, hb.symm⟩

/-- Witness for C3 (amended): concrete successful connect followed by a
rejected second attempt. -/
theorem websocket_endpoint_witness :
    let run : WorkflowRun :=
      { state := .INITIALIZED, is_completed := false,
        telephony_status_callbacks := [], call_tags := [],
        campaign_id := none, queued_run_id := none,
        initial_context_provider := some "twilio" }
    let env : WsEnv :=
      { workflow_run := some run, workflow_exists := true,
        org_provider := "twilio" }
    websocketEndpoint env =
      (.accepted .RUNNING, some { run with state := .RUNNING }) ∧
    websocketEndpoint { env with
        workflow_run := some { run with state := .RUNNING } } =
      (.rejected 4409 "Workflow run not available for connection",
        some { run with state := .RUNNING }) := by
  have h := websocket_endpoint_guarded_transition
    { workflow_run := some
        { state := .INITIALIZED, is_completed := false,
          telephony_status_callbacks := [], call_tags := [],
          campaign_id := none, queued_run_id := none,
          initial_context_provider := some "twilio" },
      workflow_exists := true, org_provider := "twilio" }
  exact (h.2.1 _ rfl).2.2.2.2 "twilio" rfl rfl rfl rfl

/-- An operation of this subsystem touching one call run: a media-session
WebSocket connect attempt (`websocket_endpoint`), the processing of one
vendor status callback (`_process_status_update`), and the media pipeline's
completion hook (`on_pipeline_finished` in
`api/services/pipecat/event_handlers.py`). -/
inductive CallOp
  | wsConnect (workflow_exists : Bool) (org_provider : String)
  | statusUpdate (workflow_run_id : Nat) (status : StatusCallbackRequest)
      (now : String)
  | pipelineFinished

/-- Effect of one operation on the run, derived from the embeddings above:
a connect attempt routes through `websocketEndpoint` (on a run that exists),
a status callback through `processStatusUpdate`, and the pipeline completion
hook writes `is_completed := true, state := COMPLETED` as its
`update_workflow_run` call does. -/
def applyOp (op : CallOp) (run : WorkflowRun) : WorkflowRun :=
  match op with
  | .wsConnect workflow_exists org_provider =>
      (websocketEndpoint
        { workflow_run := some run, workflow_exists := workflow_exists,
          org_provider := org_provider }).2.getD run
  | .statusUpdate workflow_run_id status now =>
      (processStatusUpdate workflow_run_id status run now).1
  | .pipelineFinished =>
      { run with is_completed := true, state := .COMPLETED }

/-- Sequential application of operations, earliest first. -/
def runOps (ops : List CallOp) (run : WorkflowRun) : WorkflowRun :=
  ops.foldl (fun r op => applyOp op r) run

/-- One operation never moves the state to an earlier lifecycle rank. -/
theorem applyOp_state_monotone (op : CallOp) (run : WorkflowRun) :
    run.state.rank ≤ (applyOp op run).state.rank := by
  cases op with
  | wsConnect we op' =>
      by_cases hw : we = false
      · simp [applyOp, websocketEndpoint, hw]
      · by_cases hst : run.state = .INITIALIZED
        · rcases hp : run.initial_context_provider with _ | ptype
          · simp [applyOp, websocketEndpoint, hw, hst, hp]
          · by_cases hpe : op' = ptype <;>
              simp [applyOp, websocketEndpoint, hw, hst, hp, hpe,
                WorkflowRunState.rank]
        · simp [applyOp, websocketEndpoint, hw, hst]
  | statusUpdate i st now =>
      by_cases h1 : st.status = "completed"
      · cases hs : run.state <;>
          simp [applyOp, processStatusUpdate, h1, WorkflowRunState.rank, hs]
      · by_cases h2 : st.status = "failed" ∨ st.status = "busy" ∨
            st.status = "no-answer" ∨ st.status = "canceled"
        · cases hs : run.state <;>
            simp [applyOp, processStatusUpdate, h1, h2,
              WorkflowRunState.rank, hs]
        · simp [applyOp, processStatusUpdate, h1, h2]
  | pipelineFinished =>
      cases hs : run.state <;>
        simp [applyOp, WorkflowRunState.rank, hs]

/-- One operation preserves the invariant
`is_completed = true ↔ state = COMPLETED`. -/
theorem applyOp_completed_iff (op : CallOp) (run : WorkflowRun)
    (hinv : run.is_completed = true ↔ run.state = .COMPLETED) :
    (applyOp op run).is_completed = true ↔
      (applyOp op run).state = .COMPLETED := by
  cases op with
  | wsConnect we op' =>
      by_cases hw : we = false
      · simpa [applyOp, websocketEndpoint, hw] using hinv
      · by_cases hst : run.state = .INITIALIZED
        · rcases hp : run.initial_context_provider with _ | ptype
          · simpa [applyOp, websocketEndpoint, hw, hst, hp] using hinv
          · by_cases hpe : op' = ptype
            · have hnc : run.is_completed = false := by
                rcases hb : run.is_completed with _ | _
                · rfl
                · rw [hst] at hinv
                  simp only [hb] at hinv
                  exact absurd (hinv.mp trivial) (by decide)
              simp [applyOp, websocketEndpoint, hw, hst, hp, hpe, hnc]
            · simpa [applyOp, websocketEndpoint, hw, hst, hp, hpe] using hinv
        · simpa [applyOp, websocketEndpoint, hw, hst] using hinv
  | statusUpdate i st now =>
      by_cases h1 : st.status = "completed"
      · simp [applyOp, processStatusUpdate, h1]
      · by_cases h2 : st.status = "failed" ∨ st.status = "busy" ∨
            st.status = "no-answer" ∨ st.status = "canceled"
        · simp [applyOp, processStatusUpdate, h1, h2]
        · simpa [applyOp, processStatusUpdate, h1, h2] using hinv
  | pipelineFinished => simp [applyOp]

/-- C4: over any sequence of subsystem operations on a call run satisfying
the completion invariant (as freshly created runs do), the lifecycle state
is monotone in the order INITIALIZED < RUNNING < COMPLETED at every step,
and after every step `is_completed = true` iff `state = COMPLETED`. -/
theorem callrun_state_monotone_and_completed_iff (run : WorkflowRun)
    (ops : List CallOp)
    (hinv : run.is_completed = true ↔ run.state = .COMPLETED) :
    (∀ op, run.state.rank ≤ (applyOp op run).state.rank) ∧
    ((runOps ops run).is_completed = true ↔
      (runOps ops run).state = .COMPLETED) ∧
    run.state.rank ≤ (runOps ops run).state.rank := by
  refine ⟨fun op => applyOp_state_monotone op run, ?_⟩
  induction ops generalizing run with
  | nil => exact ⟨hinv, le_refl _⟩
  | cons op rest ih =>
      obtain ⟨h1, h2⟩ := ih (applyOp op run) (applyOp_completed_iff op run hinv)
      refine ⟨by simpa [runOps] using h1, ?_⟩
      calc run.state.rank ≤ (applyOp op run).state.rank :=
            applyOp_state_monotone op run
        _ ≤ (runOps rest (applyOp op run)).state.rank := h2
        _ = (runOps (op :: rest) run).state.rank := by simp [runOps]

/-- Witness for C4: a freshly created run through connect, then a
terminal callback, then pipeline completion. -/
theorem callrun_state_monotone_witness :
    let run : WorkflowRun :=
      { state := .INITIALIZED, is_completed := false,
        telephony_status_callbacks := [], call_tags := [],
        campaign_id := none, queued_run_id := none,
        initial_context_provider := some "twilio" }
    let ops : List CallOp :=
      [.wsConnect true "twilio",
       .statusUpdate 3 { call_id := "CA9", status := "completed" } "t1",
       .pipelineFinished]
    ((runOps ops run).is_completed = true ↔
      (runOps ops run).state = .COMPLETED) ∧
    run.state.rank ≤ (runOps ops run).state.rank := by
  have h := callrun_state_monotone_and_completed_iff
    { state := .INITIALIZED, is_completed := false,
      telephony_status_callbacks := [], call_tags := [],
      campaign_id := none, queued_run_id := none,
      initial_context_provider := some "twilio" }
    [.wsConnect true "twilio",
     .statusUpdate 3 { call_id := "CA9", status := "completed" } "t1",
     .pipelineFinished]
    (by simp)
  exact ⟨h.2.1, h.2.2⟩

/-- The closed error taxonomy `TelephonyError` from
`api/errors/telephony_errors.py` (members as used throughout
`api/routes/telephony.py` and listed in the spec). -/
inductive TelephonyError
  | VALID
  | WORKFLOW_NOT_FOUND
  | ACCOUNT_VALIDATION_FAILED
  | PROVIDER_MISMATCH
  | PHONE_NUMBER_NOT_CONFIGURED
  | SIGNATURE_VALIDATION_FAILED
  | QUOTA_EXCEEDED
  | GENERAL_AUTH_FAILED
deriving DecidableEq, Repr

/-- Environment read by the inbound validation pipeline: the workflow lookup,
the normalized webhook fields, the organization's stored telephony
configuration, the provider-specific account check, the phone-number match
and the signature check, each as the value the corresponding collaborator
returns. -/
structure InboundEnv where
  workflow_exists : Bool
  detected_provider : String
  account_id : Option String
  config_present : Bool
  stored_provider : Option String
  validate_account_ok : Bool
  phone_ok : Bool
  x_twilio_signature : Option String
  x_vobiz_signature : Option String
  signature_ok : Bool
deriving DecidableEq, Repr

/-- `_validate_organization_provider_config` from `api/routes/telephony.py`
(lines 430-471): requires a truthy `account_id`, a present configuration, a
stored provider discriminant equal to the detected provider's name, and a
passing provider-specific account check. -/
def validateOrganizationProviderConfig (env : InboundEnv) : TelephonyError :=
  if env.account_id.getD "" = "" then .ACCOUNT_VALIDATION_FAILED
  else if env.config_present = false then .ACCOUNT_VALIDATION_FAILED
  else if env.stored_provider ≠ some env.detected_provider then
    .PROVIDER_MISMATCH
  else if env.validate_account_ok = false then .ACCOUNT_VALIDATION_FAILED
  else .VALID

/-- `_validate_inbound_request` from `api/routes/telephony.py` (lines
301-393): workflow lookup, then account/provider validation, then the
organization phone-number check, then — only when a Twilio or Vobiz
signature header is present — signature verification (with a pass-through
for other vendors), short-circuiting at the first failure. Returns
`(is_valid, error)` with `error = none` standing for the empty error the
code returns on success. -/
def validateInboundRequest (env : InboundEnv) :
    Bool × Option TelephonyError :=
  if env.workflow_exists = false then (false, some .WORKFLOW_NOT_FOUND)
  else
    let validation := validateOrganizationProviderConfig env
    if validation ≠ .VALID then (false, some validation)
    else if env.phone_ok = false then
      (false, some .PHONE_NUMBER_NOT_CONFIGURED)
    else if env.x_twilio_signature.isSome ∨ env.x_vobiz_signature.isSome then
      let signature_valid :=
        if env.detected_provider = "twilio" ∧ env.x_twilio_signature.isSome
        then env.signature_ok
        else if env.detected_provider = "vobiz" ∧ env.x_vobiz_signature.isSome
        then env.signature_ok
        else true
      if signature_valid = false then
        (false, some .SIGNATURE_VALIDATION_FAILED)
      else (true, none)
    else (true, none)

/-- The response the inbound webhook handler sends back to the vendor (the
part of `handle_inbound_telephony` after provider detection). -/
inductive InboundResponse
  | validationError (provider : String) (error : TelephonyError)
  | genericHangup
  | accepted (provider : String)
deriving DecidableEq, Repr

/-- The validation-and-respond step of `handle_inbound_telephony`
(`api/routes/telephony.py` lines 1311-1341): on a failed validation the
handler returns the detected provider's
`generate_validation_error_response(error_type)`; on success with quota it
proceeds to create the run and emit the vendor response. -/
def handleInboundValidation (env : InboundEnv) (has_quota : Bool) :
    InboundResponse :=
  let result := validateInboundRequest env
  if result.1 = false then
    .validationError env.detected_provider (result.2.getD .VALID)
  else if has_quota = false then
    .validationError env.detected_provider .QUOTA_EXCEEDED
  else .accepted env.detected_provider

/-- The three values `_validate_organization_provider_config` can return. -/
theorem vopc_cases (env : InboundEnv) :
    validateOrganizationProviderConfig env = .VALID ∨
    validateOrganizationProviderConfig env = .ACCOUNT_VALIDATION_FAILED ∨
    validateOrganizationProviderConfig env = .PROVIDER_MISMATCH := by
  unfold validateOrganizationProviderConfig
  split
  · exact Or.inr (Or.inl rfl)
  · split
    · exact Or.inr (Or.inl rfl)
    · split
      · exact Or.inr (Or.inr rfl)
      · split
        · exact Or.inr (Or.inl rfl)
        · exact Or.inl rfl

/-- Field-level characterization of a `PROVIDER_MISMATCH` outcome. -/
theorem vopc_mismatch_iff (env : InboundEnv) :
    validateOrganizationProviderConfig env = .PROVIDER_MISMATCH ↔
      env.account_id.getD "" ≠ "" ∧ env.config_present = true ∧
      env.stored_provider ≠ some env.detected_provider := by
  by_cases h2 : env.account_id.getD "" = "" <;>
  by_cases h3 : env.config_present = false <;>
  by_cases h4 : env.stored_provider = some env.detected_provider <;>
  by_cases h5 : env.validate_account_ok = false <;>
  simp [validateOrganizationProviderConfig, h2, h3, h4, h5]

/-- Field-level characterization of an `ACCOUNT_VALIDATION_FAILED`
outcome. -/
theorem vopc_account_failed_iff (env : InboundEnv) :
    validateOrganizationProviderConfig env = .ACCOUNT_VALIDATION_FAILED ↔
      (env.account_id.getD "" = "" ∨
        (env.account_id.getD "" ≠ "" ∧ env.config_present = false) ∨
        (env.account_id.getD "" ≠ "" ∧ env.config_present = true ∧
          env.stored_provider = some env.detected_provider ∧
          env.validate_account_ok = false)) := by
  by_cases h2 : env.account_id.getD "" = "" <;>
  by_cases h3 : env.config_present = false <;>
  by_cases h4 : env.stored_provider = some env.detected_provider <;>
  by_cases h5 : env.validate_account_ok = false <;>
  simp [validateOrganizationProviderConfig, h2, h3, h4, h5]

/-- C5: the inbound checks run in the fixed order (workflow; account and
provider; phone number; signature only when a vendor signature header is
present) and short-circuit at the first failure, each failure yielding
exactly its own error (with the account step characterized at field level);
a request with no signature header passes the signature step; and on any
validation failure the handler replies with the detected provider's
validation-error response for that error. -/
theorem inbound_validation_order_and_short_circuit (env : InboundEnv) :
    (validateInboundRequest env = (false, some .WORKFLOW_NOT_FOUND) ↔
      env.workflow_exists = false) ∧
    (validateInboundRequest env = (false, some .PROVIDER_MISMATCH) ↔
      env.workflow_exists = true ∧
      validateOrganizationProviderConfig env = .PROVIDER_MISMATCH) ∧
    (validateInboundRequest env = (false, some .ACCOUNT_VALIDATION_FAILED) ↔
      env.workflow_exists = true ∧
      validateOrganizationProviderConfig env = .ACCOUNT_VALIDATION_FAILED) ∧
    (validateOrganizationProviderConfig env = .PROVIDER_MISMATCH ↔
      env.account_id.getD "" ≠ "" ∧ env.config_present = true ∧
      env.stored_provider ≠ some env.detected_provider) ∧
    (validateOrganizationProviderConfig env = .ACCOUNT_VALIDATION_FAILED ↔
      (env.account_id.getD "" = "" ∨
        (env.account_id.getD "" ≠ "" ∧ env.config_present = false) ∨
        (env.account_id.getD "" ≠ "" ∧ env.config_present = true ∧
          env.stored_provider = some env.detected_provider ∧
          env.validate_account_ok = false))) ∧
    (validateInboundRequest env = (false, some .PHONE_NUMBER_NOT_CONFIGURED) ↔
      env.workflow_exists = true ∧
      validateOrganizationProviderConfig env = .VALID ∧
      env.phone_ok = false) ∧
    (validateInboundRequest env = (false, some .SIGNATURE_VALIDATION_FAILED) ↔
      env.workflow_exists = true ∧
      validateOrganizationProviderConfig env = .VALID ∧
      env.phone_ok = true ∧
      (env.x_twilio_signature.isSome ∨ env.x_vobiz_signature.isSome) ∧
      env.signature_ok = false ∧
      ((env.detected_provider = "twilio" ∧ env.x_twilio_signature.isSome) ∨
        (env.detected_provider = "vobiz" ∧
          env.x_vobiz_signature.isSome))) ∧
    (env.workflow_exists = true →
      validateOrganizationProviderConfig env = .VALID →
      env.phone_ok = true →
      env.x_twilio_signature = none → env.x_vobiz_signature = none →
      validateInboundRequest env = (true, none)) ∧
    (∀ e, validateInboundRequest env = (false, some e) →
      ∀ q, handleInboundValidation env q =
        .validationError env.detected_provider e) := by
  refine ⟨?_, ?_, ?_, vopc_mismatch_iff env, vopc_account_failed_iff env,
    ?_, ?_, ?_, ?_⟩
  · by_cases h1 : env.workflow_exists = false
    · simp [validateInboundRequest, h1]
    · rcases vopc_cases env with hv | hv | hv
      · by_cases h6 : env.phone_ok = false
        · simp [validateInboundRequest, h1, hv, h6]
        · by_cases hs : env.x_twilio_signature.isSome ∨
              env.x_vobiz_signature.isSome
          · by_cases hA : env.detected_provider = "twilio" ∧
                env.x_twilio_signature.isSome = true <;>
            by_cases hB : env.detected_provider = "vobiz" ∧
                env.x_vobiz_signature.isSome = true <;>
            by_cases h11 : env.signature_ok = false <;>
            simp [validateInboundRequest, h1, hv, h6, hs, hA, hB, h11]
          · simp [validateInboundRequest, h1, hv, h6, hs]
      · simp [validateInboundRequest, h1, hv]
      · simp [validateInboundRequest, h1, hv]
  · by_cases h1 : env.workflow_exists = false
    · simp [validateInboundRequest, h1]
    · rcases vopc_cases env with hv | hv | hv
      · by_cases h6 : env.phone_ok = false
        · simp [validateInboundRequest, h1, hv, h6]
        · by_cases hs : env.x_twilio_signature.isSome ∨
              env.x_vobiz_signature.isSome
          · by_cases hA : env.detected_provider = "twilio" ∧
                env.x_twilio_signature.isSome = true <;>
            by_cases hB : env.detected_provider = "vobiz" ∧
                env.x_vobiz_signature.isSome = true <;>
            by_cases h11 : env.signature_ok = false <;>
            simp [validateInboundRequest, h1, hv, h6, hs, hA, hB, h11]
          · simp [validateInboundRequest, h1, hv, h6, hs]
      · simp [validateInboundRequest, h1, hv]
      · simp [validateInboundRequest, h1, hv]
  · by_cases h1 : env.workflow_exists = false
    · simp [validateInboundRequest, h1]
    · rcases vopc_cases env with hv | hv | hv
      · by_cases h6 : env.phone_ok = false
        · simp [validateInboundRequest, h1, hv, h6]
        · by_cases hs : env.x_twilio_signature.isSome ∨
              env.x_vobiz_signature.isSome
          · by_cases hA : env.detected_provider = "twilio" ∧
                env.x_twilio_signature.isSome = true <;>
            by_cases hB : env.detected_provider = "vobiz" ∧
                env.x_vobiz_signature.isSome = true <;>
            by_cases h11 : env.signature_ok = false <;>
            simp [validateInboundRequest, h1, hv, h6, hs, hA, hB, h11]
          · simp [validateInboundRequest, h1, hv, h6, hs]
      · simp [validateInboundRequest, h1, hv]
      · simp [validateInboundRequest, h1, hv]
  · by_cases h1 : env.workflow_exists = false
    · simp [validateInboundRequest, h1]
    · rcases vopc_cases env with hv | hv | hv
      · by_cases h6 : env.phone_ok = false
        · simp [validateInboundRequest, h1, hv, h6]
        · by_cases hs : env.x_twilio_signature.isSome ∨
              env.x_vobiz_signature.isSome
          · by_cases hA : env.detected_provider = "twilio" ∧
                env.x_twilio_signature.isSome = true <;>
            by_cases hB : env.detected_provider = "vobiz" ∧
                env.x_vobiz_signature.isSome = true <;>
            by_cases h11 : env.signature_ok = false <;>
            simp [validateInboundRequest, h1, hv, h6, hs, hA, hB, h11]
          · simp [validateInboundRequest, h1, hv, h6, hs]
      · simp [validateInboundRequest, h1, hv]
      · simp [validateInboundRequest, h1, hv]
  · by_cases h1 : env.workflow_exists = false
    · simp [validateInboundRequest, h1]
    · rcases vopc_cases env with hv | hv | hv
      · by_cases h6 : env.phone_ok = false
        · simp [validateInboundRequest, h1, hv, h6]
        · by_cases hs : env.x_twilio_signature.isSome ∨
              env.x_vobiz_signature.isSome
          · by_cases h9 : env.detected_provider = "twilio" <;>
            by_cases h10 : env.detected_provider = "vobiz" <;>
            by_cases h7 : env.x_twilio_signature.isSome <;>
            by_cases h8 : env.x_vobiz_signature.isSome <;>
            by_cases h11 : env.signature_ok = false <;>
            simp_all [validateInboundRequest]
          · simp [validateInboundRequest, h1, hv, h6, hs]
      · simp [validateInboundRequest, h1, hv]
      · simp [validateInboundRequest, h1, hv]
  · intro h1 hv hp ht hb
    simp [validateInboundRequest, h1, hv, hp, ht, hb]
  · intro e he q
    simp [handleInboundValidation, he]

/-- Witness for C5: a concrete request failing at the phone-number step. -/
theorem inbound_validation_witness :
    let env : InboundEnv :=
      { workflow_exists := true, detected_provider := "twilio",
        account_id := some "AC1", config_present := true,
        stored_provider := some "twilio", validate_account_ok := true,
        phone_ok := false, x_twilio_signature := none,
        x_vobiz_signature := none, signature_ok := true }
    validateInboundRequest env =
      (false, some .PHONE_NUMBER_NOT_CONFIGURED) ∧
    handleInboundValidation env true =
      .validationError "twilio" .PHONE_NUMBER_NOT_CONFIGURED := by
  have h := inbound_validation_order_and_short_circuit
    { workflow_exists := true, detected_provider := "twilio",
      account_id := some "AC1", config_present := true,
      stored_provider := some "twilio", validate_account_ok := true,
      phone_ok := false, x_twilio_signature := none,
      x_vobiz_signature := none, signature_ok := true }
  have h4 := (h.2.2.2.2.2.1).mpr ⟨rfl, by decide, rfl⟩
  exact ⟨h4, h.2.2.2.2.2.2.2.2 _ h4 true⟩

/-- `get_all_telephony_providers` from
`api/services/telephony/factory.py` (lines 133-140): the fixed, ordered
list of provider classes used for inbound webhook detection, identified
here by their `PROVIDER_NAME` values. -/
def getAllTelephonyProviders : List String :=
  ["twilio", "vobiz", "vonage", "itniotech"]

/-- `_detect_provider` from `api/routes/telephony.py` (lines 289-298):
returns the first provider class in the detection list whose
`can_handle_webhook(webhook_data, headers)` is true, or none.
`canHandle p` stands for provider class `p`'s `can_handle_webhook` applied
to the request's payload and headers. -/
def detectProvider (canHandle : String → Bool) : Option String :=
  getAllTelephonyProviders.find? canHandle

/-- Outcome of the detection step of `handle_inbound_telephony`
(`api/routes/telephony.py` lines 1284-1287): proceed with the detected
class, or emit the vendor-agnostic hangup response. -/
inductive DetectOutcome
  | proceed (provider : String)
  | genericHangup
deriving DecidableEq, Repr

/-- The detection step of `handle_inbound_telephony`: on a failed detection
the handler returns `generic_hangup_response()`. -/
def handleInboundDetection (canHandle : String → Bool) : DetectOutcome :=
  match detectProvider canHandle with
  | none => .genericHangup
  | some p => .proceed p

/-- C6: detection scans exactly [twilio, vobiz, vonage, itniotech] (LiveKit
excluded) and returns the first class whose heuristic accepts, so an
earlier-listed vendor always wins when several heuristics match; with no
match the handler emits the vendor-agnostic hangup response. -/
theorem detect_provider_priority_order (canHandle : String → Bool) :
    detectProvider canHandle =
      (if canHandle "twilio" then some "twilio"
       else if canHandle "vobiz" then some "vobiz"
       else if canHandle "vonage" then some "vonage"
       else if canHandle "itniotech" then some "itniotech"
       else none) ∧
    "livekit" ∉ getAllTelephonyProviders ∧
    (detectProvider canHandle = none →
      handleInboundDetection canHandle = .genericHangup) := by
  refine ⟨?_, by decide, ?_⟩
  · by_cases h1 : canHandle "twilio" <;>
    by_cases h2 : canHandle "vobiz" <;>
    by_cases h3 : canHandle "vonage" <;>
    by_cases h4 : canHandle "itniotech" <;>
    simp [detectProvider, getAllTelephonyProviders, List.find?, h1, h2, h3, h4]
  · intro h
    simp [handleInboundDetection, h]

/-- Witness for C6: an order-significant heuristic and a no-match request.
With both the Vobiz and Vonage heuristics accepting, the earlier-listed
Vobiz wins; with no heuristic accepting, the handler hangs up. -/
theorem detect_provider_witness :
    detectProvider (fun p => p == "vobiz" || p == "vonage") = some "vobiz" ∧
    handleInboundDetection (fun _ => false) = .genericHangup := by
  have h1 := detect_provider_priority_order
    (fun p => p == "vobiz" || p == "vonage")
  have h2 := detect_provider_priority_order (fun _ => false)
  refine ⟨?_, h2.2.2 ?_⟩
  · rw [h1.1]; decide
  · rw [h2.1]; decide

/-- The stored `TELEPHONY_CONFIGURATION` value for an organization, as read
by `load_telephony_config`: the optional `provider` discriminant, the other
credential entries, and the `from_numbers` list. A `none` at the outer level
stands for a missing or empty configuration row. -/
structure StoredTelephonyValue where
  provider : Option String
  entries : List (String × String)
  from_numbers : List String
deriving DecidableEq, Repr

/-- `config.value.get(key)` on the stored configuration dictionary. -/
def svGet (v : StoredTelephonyValue) (key : String) : Option String :=
  (v.entries.find? (fun p => p.1 = key)).map (fun p => p.2)

/-- The provider-specific configuration dictionary `load_telephony_config`
returns: the `provider` tag, the vendor-specific credential keys, and
`from_numbers`. -/
structure TelephonyConfigDict where
  provider : String
  credentials : List (String × Option String)
  from_numbers : List String
deriving DecidableEq, Repr

/-- `load_telephony_config` from `api/services/telephony/factory.py`
(lines 21-91): with a present configuration, dispatches on the stored
`provider` discriminant (defaulting to "twilio" when the key is absent)
over the five handled vendors and otherwise raises `ValueError`; with no
configuration, raises `ValueError`. Raises are modelled as `Except.error`
carrying the message. -/
def loadTelephonyConfig (config : Option StoredTelephonyValue) :
    Except String TelephonyConfigDict :=
  match config with
  | some v =>
    let provider := v.provider.getD "twilio"
    if provider = "twilio" then
      .ok { provider := "twilio"
            credentials := [("account_sid", svGet v "account_sid"),
              ("auth_token", svGet v "auth_token")]
            from_numbers := v.from_numbers }
    else if provider = "vonage" then
      .ok { provider := "vonage"
            credentials := [("application_id", svGet v "application_id"),
              ("private_key", svGet v "private_key"),
              ("api_key", svGet v "api_key"),
              ("api_secret", svGet v "api_secret")]
            from_numbers := v.from_numbers }
    else if provider = "vobiz" then
      .ok { provider := "vobiz"
            credentials := [("auth_id", svGet v "auth_id"),
              ("auth_token", svGet v "auth_token")]
            from_numbers := v.from_numbers }
    else if provider = "cloudonix" then
      .ok { provider := "cloudonix"
            credentials := [("bearer_token", svGet v "bearer_token"),
              ("domain_id", svGet v "domain_id")]
            from_numbers := v.from_numbers }
    else if provider = "itniotech" then
      .ok { provider := "itniotech"
            credentials := [("api_key", svGet v "api_key"),
              ("api_secret", svGet v "api_secret"),
              ("base_url", svGet v "base_url")]
            from_numbers := v.from_numbers }
    else .error ("Unknown provider in config: " ++ provider)
  | none => .error "No telephony configuration found for organization"

/-- `get_telephony_provider` from `api/services/telephony/factory.py`
(lines 94-130): loads the configuration and instantiates the provider for
its `provider` tag, modelled by the instantiated provider's
`PROVIDER_NAME`. -/
def getTelephonyProvider (config : Option StoredTelephonyValue) :
    Except String String :=
  match loadTelephonyConfig config with
  | .error e => .error e
  | .ok c =>
    let provider_type := c.provider
    if provider_type = "twilio" then .ok "twilio"
    else if provider_type = "vonage" then .ok "vonage"
    else if provider_type = "vobiz" then .ok "vobiz"
    else if provider_type = "cloudonix" then .ok "cloudonix"
    else if provider_type = "itniotech" then .ok "itniotech"
    else .error ("Unknown telephony provider: " ++ provider_type)

/-- C7 counterexample: the claim includes `livekit` among the discriminants
for which `load_config` succeeds, but the factory recognizes only five
vendors and raises on a stored `livekit` configuration. -/
theorem load_config_livekit_fails :
    loadTelephonyConfig
      (some { provider := some "livekit",
              entries := [("server_url", "https://lk.example"),
                ("api_key", "k"), ("api_secret", "s"),
                ("sip_trunk_id", "t")],
              from_numbers := [] }) =
      .error "Unknown provider in config: livekit" := by
  rfl

/-- C7 (amended): for the five handled discriminants (twilio, vonage,
vobiz, cloudonix, itniotech) `load_telephony_config` returns that vendor's
configuration and `get_telephony_provider` builds that vendor's provider; a
missing discriminant key defaults to twilio; the error occurs exactly when
the configuration is absent or its effective discriminant is outside these
five (in particular for `livekit`). -/
theorem load_config_five_providers (config : Option StoredTelephonyValue) :
    ((∃ c, loadTelephonyConfig config = .ok c) ↔
      ∃ v, config = some v ∧
        v.provider.getD "twilio" ∈
          (["twilio", "vonage", "vobiz", "cloudonix", "itniotech"] :
            List String)) ∧
    (∀ c, loadTelephonyConfig config = .ok c →
      ∃ v, config = some v ∧ c.provider = v.provider.getD "twilio" ∧
        getTelephonyProvider config = .ok c.provider) := by
  rcases config with _ | v
  · constructor
    · constructor
      · rintro ⟨c, hc⟩; cases hc
      · rintro ⟨v, hv, -⟩; cases hv
    · intro c hc; cases hc
  · constructor
    · constructor
      · rintro ⟨c, hc⟩
        refine ⟨v, rfl, ?_⟩
        unfold loadTelephonyConfig at hc
        by_cases h1 : v.provider.getD "twilio" = "twilio"
        · simp [h1]
        · by_cases h2 : v.provider.getD "twilio" = "vonage"
          · simp [h2]
          · by_cases h3 : v.provider.getD "twilio" = "vobiz"
            · simp [h3]
            · by_cases h4 : v.provider.getD "twilio" = "cloudonix"
              · simp [h4]
              · by_cases h5 : v.provider.getD "twilio" = "itniotech"
                · simp [h5]
                · simp only [h1, h2, h3, h4, h5, if_false, ite_false] at hc
                  cases hc
      · rintro ⟨w, hw, hmem⟩
        obtain rfl : v = w := by cases hw; rfl
        simp only [List.mem_cons, List.not_mem_nil, or_false] at hmem
        rcases hmem with h | h | h | h | h <;>
          simp [loadTelephonyConfig, h]
    · intro c hc
      refine ⟨v, rfl, ?_⟩
      unfold loadTelephonyConfig at hc
      by_cases h1 : v.provider.getD "twilio" = "twilio"
      · simp [h1] at hc
        subst hc
        exact ⟨h1.symm,
          by simp [getTelephonyProvider, loadTelephonyConfig, h1]⟩
      · by_cases h2 : v.provider.getD "twilio" = "vonage"
        · simp [h1, h2] at hc
          subst hc
          exact ⟨h2.symm,
            by simp [getTelephonyProvider, loadTelephonyConfig, h1, h2]⟩
        · by_cases h3 : v.provider.getD "twilio" = "vobiz"
          · simp [h1, h2, h3] at hc
            subst hc
            exact ⟨h3.symm,
              by simp [getTelephonyProvider, loadTelephonyConfig,
                h1, h2, h3]⟩
          · by_cases h4 : v.provider.getD "twilio" = "cloudonix"
            · simp [h1, h2, h3, h4] at hc
              subst hc
              exact ⟨h4.symm,
                by simp [getTelephonyProvider, loadTelephonyConfig,
                  h1, h2, h3, h4]⟩
            · by_cases h5 : v.provider.getD "twilio" = "itniotech"
              · simp [h1, h2, h3, h4, h5] at hc
                subst hc
                exact ⟨h5.symm,
                  by simp [getTelephonyProvider, loadTelephonyConfig,
                    h1, h2, h3, h4, h5]⟩
              · simp [h1, h2, h3, h4, h5] at hc

/-- Witness for C7 (amended): a concrete cloudonix configuration loads as
cloudonix, and the provider factory builds the cloudonix provider. -/
theorem load_config_five_providers_witness :
    let cfg : Option StoredTelephonyValue :=
      some { provider := some "cloudonix",
             entries := [("bearer_token", "b"), ("domain_id", "d")],
             from_numbers := ["+15550001111"] }
    (∃ c, loadTelephonyConfig cfg = .ok c) ∧
    getTelephonyProvider cfg = .ok "cloudonix" := by
  have h := load_config_five_providers
    (some { provider := some "cloudonix",
            entries := [("bearer_token", "b"), ("domain_id", "d")],
            from_numbers := ["+15550001111"] })
  have hok := h.1.mpr ⟨_, rfl, by decide⟩
  obtain ⟨c, hc⟩ := hok
  obtain ⟨v, hv, hprov, hget⟩ := h.2 c hc
  obtain rfl := Option.some.inj hv
  refine ⟨⟨c, hc⟩, ?_⟩
  rw [hget, hprov]
  rfl

/-- The request body of `POST /telephony/initiate-call`
(`InitiateCallRequest` in `api/routes/telephony.py`). -/
structure InitiateCallRequest where
  workflow_id : Nat
  workflow_run_id : Option Nat := none
  phone_number : Option String := none
deriving DecidableEq, Repr

/-- Python truthiness of an optional string: `None` and `""` are falsy. -/
def strTruthy : Option String → Option String
  | some s => if s = "" then none else some s
  | none => none

/-- Python `a or b` on optional strings. -/
def pythonOr (a b : Option String) : Option String :=
  match strTruthy a with
  | some s => some s
  | none => b

/-- Python `f"{n:08d}"` for `n < 10^8`: the eight decimal digits of `n`,
most significant first. -/
def format08d (n : Nat) : String :=
  String.mk ((List.range 8).map (fun i => Nat.digitChar (n / 10 ^ (7 - i) % 10)))

/-- Environment of one `initiate_call` request: the configured provider
(its name and `validate_config()` result), the quota check, the user
configuration's test number, the run looked up when a `workflow_run_id` is
supplied, the run-name suffix drawn from the fresh UUID, and the
`provider_metadata` the provider's `initiate_call` returns. -/
structure OutboundEnv where
  provider_name : String
  validate_config : Bool
  has_quota : Bool
  quota_error : String
  test_phone_number : Option String
  existing_run_name : Option String
  uuid_int : Nat
  provider_metadata : List (String × String)
deriving DecidableEq, Repr

/-- The observable outcome of `initiate_call`: an `HTTPException` with a
status code and detail, or the success message. -/
inductive InitiateCallResult
  | httpError (status_code : Nat) (detail : String)
  | success (message : String)
deriving DecidableEq, Repr

/-- A workflow run created by `initiate_call`, with the fields it passes to
`create_workflow_run`. -/
structure CreatedRun where
  name : String
  workflow_id : Nat
  mode : String
  call_type : String
  initial_phone_number : String
  initial_provider : String
deriving DecidableEq, Repr

/-- The side effects of one `initiate_call` request: runs created, number of
`provider.initiate_call` invocations, and the `gathered_context` written
back. -/
structure OutboundEffects where
  runs_created : List CreatedRun
  initiate_calls : Nat
  gathered_context : List (String × String)
deriving DecidableEq, Repr

/-- No side effects. -/
def noOutboundEffects : OutboundEffects :=
  { runs_created := [], initiate_calls := 0, gathered_context := [] }

/-- `initiate_call` from `api/routes/telephony.py` (lines 123-212):
validates the provider configuration (400), the quota (402), resolves the
destination number from the request or the user configuration (400 when
neither), creates a run named `WR-TEL-OUT-<8 digits>` when no run id is
supplied (400 when a supplied id finds no run), invokes the provider's
`initiate_call` once, and persists `{"provider": name} ∪ provider_metadata`
as the gathered context. -/
def initiateCall (request : InitiateCallRequest) (env : OutboundEnv) :
    InitiateCallResult × OutboundEffects :=
  if env.validate_config = false then
    (.httpError 400 "telephony_not_configured", noOutboundEffects)
  else if env.has_quota = false then
    (.httpError 402 env.quota_error, noOutboundEffects)
  else
    match strTruthy (pythonOr request.phone_number env.test_phone_number) with
    | none =>
        (.httpError 400
          "Phone number must be provided in request or set in user configuration",
          noOutboundEffects)
    | some phone_number =>
      match request.workflow_run_id with
      | none =>
        let numeric_suffix := env.uuid_int % 100000000
        let workflow_run_name := "WR-TEL-OUT-" ++ format08d numeric_suffix
        let run : CreatedRun :=
          { name := workflow_run_name
            workflow_id := request.workflow_id
            mode := env.provider_name
            call_type := "outbound"
            initial_phone_number := phone_number
            initial_provider := env.provider_name }
        (.success
          ("Call initiated successfully with run name " ++ workflow_run_name),
          { runs_created := [run]
            initiate_calls := 1
            gathered_context :=
              ("provider", env.provider_name) :: env.provider_metadata })
      | some _ =>
        match env.existing_run_name with
        | none => (.httpError 400 "Workflow run not found", noOutboundEffects)
        | some workflow_run_name =>
          (.success
            ("Call initiated successfully with run name " ++
              workflow_run_name),
            { runs_created := []
              initiate_calls := 1
              gathered_context :=
                ("provider", env.provider_name) :: env.provider_metadata })

/-- Each digit of `format08d` is a decimal digit character. -/
theorem format08d_digits (n : Nat) :
    (format08d n).length = 8 ∧
    ∀ c ∈ (format08d n).data, c.isDigit = true := by
  constructor
  · simp [format08d, String.length]
  · intro c hc
    simp only [format08d, List.mem_map] at hc
    obtain ⟨i, -, rfl⟩ := hc
    have hlt : n / 10 ^ (7 - i) % 10 < 10 := Nat.mod_lt _ (by norm_num)
    interval_cases h : n / 10 ^ (7 - i) % 10 <;> decide

/-- C8: outbound initiation fails typed at the first violated precondition
(unconfigured provider 400 `telephony_not_configured`, exhausted quota 402,
missing destination number 400), each with no run creation and no provider
call; otherwise, with no run id supplied, it creates exactly one run named
`WR-TEL-OUT-` followed by eight decimal digits, calls the provider's
`initiate_call` exactly once, persists the provider metadata merged into
the gathered context, and returns a success message referencing the run
name. -/
theorem initiate_call_preconditions_and_success
    (request : InitiateCallRequest) (env : OutboundEnv) :
    (env.validate_config = false →
      initiateCall request env =
        (.httpError 400 "telephony_not_configured", noOutboundEffects)) ∧
    (env.validate_config = true → env.has_quota = false →
      initiateCall request env =
        (.httpError 402 env.quota_error, noOutboundEffects)) ∧
    (env.validate_config = true → env.has_quota = true →
      strTruthy (pythonOr request.phone_number env.test_phone_number) =
        none →
      initiateCall request env =
        (.httpError 400
          "Phone number must be provided in request or set in user configuration",
          noOutboundEffects)) ∧
    (∀ phone, env.validate_config = true → env.has_quota = true →
      strTruthy (pythonOr request.phone_number env.test_phone_number) =
        some phone →
      request.workflow_run_id = none →
      ∃ name,
        initiateCall request env =
          (.success ("Call initiated successfully with run name " ++ name),
            { runs_created :=
                [{ name := name, workflow_id := request.workflow_id,
                   mode := env.provider_name, call_type := "outbound",
                   initial_phone_number := phone,
                   initial_provider := env.provider_name }]
              initiate_calls := 1
              gathered_context :=
                ("provider", env.provider_name) :: env.provider_metadata }) ∧
        name = "WR-TEL-OUT-" ++ format08d (env.uuid_int % 100000000) ∧
        (format08d (env.uuid_int % 100000000)).length = 8 ∧
        ∀ c ∈ (format08d (env.uuid_int % 100000000)).data,
          c.isDigit = true) := by
  refine ⟨?_, ?_, ?_, ?_⟩
  · intro h; simp [initiateCall, h]
  · intro h1 h2; simp [initiateCall, h1, h2]
  · intro h1 h2 h3; simp [initiateCall, h1, h2, h3]
  · intro phone h1 h2 h3 h4
    refine ⟨"WR-TEL-OUT-" ++ format08d (env.uuid_int % 100000000),
      ?_, rfl, (format08d_digits _).1, (format08d_digits _).2⟩
    simp [initiateCall, h1, h2, h3, h4]

/-- Witness for C8: a concrete successful outbound initiation with Twilio
configured, and a concrete quota failure. -/
theorem initiate_call_witness :
    let env : OutboundEnv :=
      { provider_name := "twilio", validate_config := true,
        has_quota := true, quota_error := "", test_phone_number := none,
        existing_run_name := none, uuid_int := 304271,
        provider_metadata := [("call_sid", "CA77")] }
    let request : InitiateCallRequest :=
      { workflow_id := 7, workflow_run_id := none,
        phone_number := some "+15551234567" }
    initiateCall request env =
      (.success "Call initiated successfully with run name WR-TEL-OUT-00304271",
        { runs_created :=
            [{ name := "WR-TEL-OUT-00304271", workflow_id := 7,
               mode := "twilio", call_type := "outbound",
               initial_phone_number := "+15551234567",
               initial_provider := "twilio" }]
          initiate_calls := 1
          gathered_context := [("provider", "twilio"),
            ("call_sid", "CA77")] }) ∧
    initiateCall request { env with has_quota := false } =
      (.httpError 402 "", noOutboundEffects) := by
  have h := initiate_call_preconditions_and_success
    { workflow_id := 7, workflow_run_id := none,
      phone_number := some "+15551234567" }
    { provider_name := "twilio", validate_config := true,
      has_quota := true, quota_error := "", test_phone_number := none,
      existing_run_name := none, uuid_int := 304271,
      provider_metadata := [("call_sid", "CA77")] }
  have hq := initiate_call_preconditions_and_success
    { workflow_id := 7, workflow_run_id := none,
      phone_number := some "+15551234567" }
    { provider_name := "twilio", validate_config := true,
      has_quota := false, quota_error := "", test_phone_number := none,
      existing_run_name := none, uuid_int := 304271,
      provider_metadata := [("call_sid", "CA77")] }
  obtain ⟨name, hcall, hname, -, -⟩ :=
    h.2.2.2 "+15551234567" rfl rfl (by decide) rfl
  have hn : name = "WR-TEL-OUT-00304271" := by
    rw [hname]; decide
  refine ⟨?_, hq.2.1 rfl rfl⟩
  rw [hcall, hn]
  rfl

/-- Environment of one status-callback request: the stored run for the
path's id, whether the run's workflow exists, the optional webhook
signature header with its verification result, and the parsed status
update. -/
structure CallbackEnv where
  workflow_run : Option WorkflowRun
  workflow_exists : Bool
  signature_header : Option String
  signature_ok : Bool
  parsed : StatusCallbackRequest
  now : String
deriving DecidableEq, Repr

/-- The JSON body a callback endpoint answers with (every such return is an
HTTP 200 response in FastAPI): its `status` field and optional
reason/message. -/
structure CallbackResponse where
  http_status : Nat
  status : String
deriving DecidableEq, Repr

/-- `handle_twilio_status_callback` from `api/routes/telephony.py` (lines
607-668): missing run or workflow answers `ignored`, a present but invalid
signature answers `error`, and otherwise the update is processed and the
endpoint answers `success`; every branch returns a body, hence HTTP 200. -/
def handleTwilioStatusCallback (workflow_run_id : Nat) (env : CallbackEnv) :
    CallbackResponse × Option (WorkflowRun × StatusUpdateEffects) :=
  match env.workflow_run with
  | none => ({ http_status := 200, status := "ignored" }, none)
  | some workflow_run =>
    if env.workflow_exists = false then
      ({ http_status := 200, status := "ignored" }, none)
    else if env.signature_header.isSome ∧ env.signature_ok = false then
      ({ http_status := 200, status := "error" }, none)
    else
      ({ http_status := 200, status := "success" },
        some (processStatusUpdate workflow_run_id env.parsed workflow_run
          env.now))

/-- `handle_vonage_events` from `api/routes/telephony.py` (lines 747-821):
missing run or workflow answers `error`, otherwise the update is processed
and the endpoint answers `ok`; every branch returns a body, hence
HTTP 200. -/
def handleVonageEvents (workflow_run_id : Nat) (env : CallbackEnv) :
    CallbackResponse × Option (WorkflowRun × StatusUpdateEffects) :=
  match env.workflow_run with
  | none => ({ http_status := 200, status := "error" }, none)
  | some workflow_run =>
    if env.workflow_exists = false then
      ({ http_status := 200, status := "error" }, none)
    else
      ({ http_status := 200, status := "ok" },
        some (processStatusUpdate workflow_run_id env.parsed workflow_run
          env.now))

/-- `handle_cloudonix_status_callback` from `api/routes/telephony.py`
(lines 1079-1133): missing run or workflow answers `ignored`, otherwise
the update is processed and the endpoint answers `success`; every branch
returns a body, hence HTTP 200. -/
def handleCloudonixStatusCallback (workflow_run_id : Nat)
    (env : CallbackEnv) :
    CallbackResponse × Option (WorkflowRun × StatusUpdateEffects) :=
  match env.workflow_run with
  | none => ({ http_status := 200, status := "ignored" }, none)
  | some workflow_run =>
    if env.workflow_exists = false then
      ({ http_status := 200, status := "ignored" }, none)
    else
      ({ http_status := 200, status := "success" },
        some (processStatusUpdate workflow_run_id env.parsed workflow_run
          env.now))

/-- C9 counterexample: the claim limits the body's `status` to
`success`/`ok`/`error`, but the Twilio endpoint answers `ignored` when the
run is missing. -/
theorem twilio_callback_ignored_status :
    (handleTwilioStatusCallback 5
      { workflow_run := none, workflow_exists := true,
        signature_header := none, signature_ok := true,
        parsed := { call_id := "CA1", status := "completed" },
        now := "t0" }).1 =
      { http_status := 200, status := "ignored" } ∧
    "ignored" ∉ (["success", "ok", "error"] : List String) := by
  exact ⟨rfl, by decide⟩

/-- C9 (amended): for every request and every internal outcome (run not
found, workflow not found, invalid signature, successful processing) the
three vendor status-callback endpoints answer HTTP 200 with a body whose
`status` field is one of `success`, `ok`, `error`, or `ignored`. -/
theorem status_callbacks_always_http200 (workflow_run_id : Nat)
    (env : CallbackEnv) :
    ((handleTwilioStatusCallback workflow_run_id env).1.http_status = 200 ∧
      (handleTwilioStatusCallback workflow_run_id env).1.status ∈
        (["success", "ok", "error", "ignored"] : List String)) ∧
    ((handleVonageEvents workflow_run_id env).1.http_status = 200 ∧
      (handleVonageEvents workflow_run_id env).1.status ∈
        (["success", "ok", "error", "ignored"] : List String)) ∧
    ((handleCloudonixStatusCallback workflow_run_id env).1.http_status =
        200 ∧
      (handleCloudonixStatusCallback workflow_run_id env).1.status ∈
        (["success", "ok", "error", "ignored"] : List String)) := by
  rcases hr : env.workflow_run with _ | run <;>
  by_cases hw : env.workflow_exists = false <;>
  by_cases hs : env.signature_header.isSome ∧ env.signature_ok = false <;>
  simp [handleTwilioStatusCallback, handleVonageEvents,
    handleCloudonixStatusCallback, hr, hw, hs]

/-- The members of the `WorkflowRunMode` enumeration in `api/enums.py`,
as `(member name, value)` pairs in declaration order. -/
def workflowRunModeMembers : List (String × String) :=
  [("TWILIO", "twilio"), ("VONAGE", "vonage"), ("VOBIZ", "vobiz"),
   ("CLOUDONIX", "cloudonix"), ("ITNIOTECH", "itniotech"),
   ("STASIS", "stasis"), ("WEBRTC", "webrtc"),
   ("SMALLWEBRTC", "smallwebrtc"), ("VOICE", "VOICE"), ("CHAT", "CHAT")]

/-- Python attribute access `WorkflowRunMode.<name>.value`: the value of
the member with that name, or `none` for the `AttributeError` raised when
no such member exists. -/
def workflowRunModeAttr (name : String) : Option String :=
  (workflowRunModeMembers.find? (fun p => p.1 = name)).map (fun p => p.2)

/-- `LiveKitProvider.PROVIDER_NAME = WorkflowRunMode.LIVEKIT.value` from
`api/services/telephony/providers/livekit_provider.py` (line 32):
evaluating the class body looks up the `LIVEKIT` member. -/
def liveKitProviderName : Option String := workflowRunModeAttr "LIVEKIT"

/-- C10: `WorkflowRunMode` has no `LIVEKIT` member, so evaluating the
LiveKit provider's class body fails with an attribute error instead of
yielding the provider tag `livekit` — while e.g. the Itniotech provider's
identical pattern succeeds. -/
theorem livekit_provider_name_undefined :
    liveKitProviderName = none ∧
    (∀ m ∈ workflowRunModeMembers, m.1 ≠ "LIVEKIT") ∧
    workflowRunModeAttr "ITNIOTECH" = some "itniotech" := by
  decide

end Dograh
